import Mathlib

/-!
Verification development for `src/web/gui.js` (chubin/noisy): a small
declarative widget toolkit binding UI controls to properties of in-memory
objects.

Modelling conventions (shallow embedding):
* DOM nodes are modelled by the state that the widget code reads and writes
  (an input's `checked` flag, its `value` string, a select's options, the
  readout span's text).  Purely presentational effects (CSS maps applied via
  `css`, focus/blur styling) are not modelled: no claim mentions them.
* JavaScript values flowing through a binding are modelled by `JSVal`.
  Arrays carry a reference identifier `ref : Nat` so that JS strict equality
  (`===`), which compares object references, is expressible; structural
  (value) equality ignores the identifier.
* JS numbers are modelled at integer granularity: `JSNum := Option Int`,
  with `none` standing for NaN.  Floating-point arithmetic itself is not
  embeddable; every numeric value appearing in the claims is integral.
* `JSON.stringify` / `JSON.parse` are modelled at the data level: the string
  stored in an option's `value` attribute is represented by the `JsonData`
  tree it encodes (the encoding is injective, so equality of `JsonData`
  values coincides with equality of the encoded strings).  `JSON.parse`
  allocates fresh array references from a seed counter.
* Host `parseFloat` is modelled as a prefix parse of an optional sign
  followed by decimal digits (fraction and exponent parts are beyond the
  integer-granularity number model); an input with no leading digits yields
  NaN (`none`), exactly the fail-soft behaviour the code relies on.
* Exceptions (`throw new Error(...)`) are modelled with `Except JSError`.
-/

/-- Model of a JavaScript value as stored in a bound property or an options
map.  Arrays carry a reference identifier so strict equality (`===`) can be
modelled; `vnum none` is NaN. -/
inductive JSVal : Type where
  | vbool (b : Bool)
  | vnum (n : Option Int)
  | vstr (s : String)
  | vnull
  | varr (ref : Nat) (elems : List JSVal)

/-- Model of a JSON document: the information content of the string produced
by `JSON.stringify`.  The encoding of a `JsonData` tree as text is injective,
so equality of `JsonData` values is equality of encoded strings. -/
inductive JsonData : Type where
  | jbool (b : Bool)
  | jnum (n : Int)
  | jstr (s : String)
  | jnull
  | jarr (elems : List JsonData)

/-- JS strict equality `===` as used on line 367 of gui.js
(`if (value === initial) option.selected = true`):
value comparison for primitives, reference comparison for arrays, and
`NaN === x` is always false. -/
def strictEq : JSVal → JSVal → Bool
  | .vbool a, .vbool b => a == b
  | .vnum (some a), .vnum (some b) => a == b
  | .vstr a, .vstr b => a == b
  | .vnull, .vnull => true
  | .varr r _, .varr r' _ => r == r'
  | _, _ => false

mutual

/-- Structural (value) equality on JS values: ignores array reference
identifiers.  This is the "value equality of the original value" notion the
spec talks about for Select preselection. -/
def structEq : JSVal → JSVal → Bool
  | .vbool a, .vbool b => a == b
  | .vnum a, .vnum b => a == b
  | .vstr a, .vstr b => a == b
  | .vnull, .vnull => true
  | .varr _ as, .varr _ bs => structEqList as bs
  | _, _ => false

/-- Pointwise structural equality on lists of JS values. -/
def structEqList : List JSVal → List JSVal → Bool
  | [], [] => true
  | a :: as, b :: bs => structEq a b && structEqList as bs
  | _, _ => false

end

mutual

/-- Model of `JSON.stringify` on line 364 of gui.js, at the data level:
NaN serializes as `null` (as in JS); array references are erased. -/
def jsonStringify : JSVal → JsonData
  | .vbool b => .jbool b
  | .vnum (some i) => .jnum i
  | .vnum none => .jnull
  | .vstr s => .jstr s
  | .vnull => .jnull
  | .varr _ es => .jarr (jsonStringifyList es)

/-- Elementwise `JSON.stringify` for array elements. -/
def jsonStringifyList : List JSVal → List JsonData
  | [] => []
  | v :: vs => jsonStringify v :: jsonStringifyList vs

end

mutual

/-- Model of `JSON.parse` on line 372 of gui.js: rebuilds a JS value from the
encoded data, allocating fresh array references from the counter `n`
(mirroring that `JSON.parse` returns newly allocated arrays, never the
original objects).  Returns the value and the next free reference. -/
def parseJson : JsonData → Nat → JSVal × Nat
  | .jnull, n => (.vnull, n)
  | .jbool b, n => (.vbool b, n)
  | .jnum i, n => (.vnum (some i), n)
  | .jstr s, n => (.vstr s, n)
  | .jarr ds, n =>
      let r := parseJsonList ds (n + 1)
      (.varr n r.1, r.2)

/-- Elementwise `JSON.parse` for array elements, threading the reference
counter. -/
def parseJsonList : List JsonData → Nat → List JSVal × Nat
  | [], n => ([], n)
  | d :: ds, n =>
      let r := parseJson d n
      let rs := parseJsonList ds r.2
      (r.1 :: rs.1, rs.2)

end

mutual

/-- Predicate: the value contains no NaN, so `JSON.stringify` loses no
information on it (in JS, NaN serializes to `null`). -/
def noNaN : JSVal → Bool
  | .vnum none => false
  | .varr _ es => noNaNList es
  | _ => true

/-- Elementwise `noNaN`. -/
def noNaNList : List JSVal → Bool
  | [] => true
  | v :: vs => noNaN v && noNaNList vs

end

mutual

/-- JSON stringify-then-parse returns a value structurally equal to the
original, for NaN-free values (fresh references notwithstanding). -/
theorem structEq_parseJson_stringify (v : JSVal) (h : noNaN v = true) (n : Nat) :
    structEq (parseJson (jsonStringify v) n).1 v = true := by
  match v with
  | .vbool b => simp [jsonStringify, parseJson, structEq]
  | .vnum (some i) => simp [jsonStringify, parseJson, structEq]
  | .vnum none => simp [noNaN] at h
  | .vstr s => simp [jsonStringify, parseJson, structEq]
  | .vnull => simp [jsonStringify, parseJson, structEq]
  | .varr r es =>
      simp only [jsonStringify, parseJson, structEq]
      exact structEqList_parseJsonList_stringifyList es (by simpa [noNaN] using h) (n + 1)

/-- Listwise version of `structEq_parseJson_stringify`. -/
theorem structEqList_parseJsonList_stringifyList (vs : List JSVal)
    (h : noNaNList vs = true) (n : Nat) :
    structEqList (parseJsonList (jsonStringifyList vs) n).1 vs = true := by
  match vs with
  | [] => simp [jsonStringifyList, parseJsonList, structEqList]
  | v :: rest =>
      simp only [noNaNList, Bool.and_eq_true] at h
      simp only [jsonStringifyList, parseJsonList, structEqList, Bool.and_eq_true]
      exact ⟨structEq_parseJson_stringify v h.1 n,
             structEqList_parseJsonList_stringifyList rest h.2 (parseJson (jsonStringify v) n).2⟩

end

---------------------------------------------------------------------------
-- Numbers and strings: String(n) and parseFloat
---------------------------------------------------------------------------

/-- JS number at integer granularity; `none` is NaN. -/
abbrev JSNum := Option Int

/-- The character for a decimal digit. -/
def digitChar (d : Nat) : Char := Char.ofNat (48 + d)

/-- Decimal digits of `n`, least significant first, with explicit fuel so
the definition reduces by computation (`n` itself is always enough
fuel). -/
def natDigitsAux : Nat → Nat → List Nat
  | _, 0 => []
  | 0, _ + 1 => []
  | fuel + 1, n + 1 => (n + 1) % 10 :: natDigitsAux fuel ((n + 1) / 10)

/-- With enough fuel, `natDigitsAux` computes `Nat.digits 10`. -/
theorem natDigitsAux_eq_digits :
    ∀ (fuel n : Nat), n ≤ fuel → natDigitsAux fuel n = Nat.digits 10 n
  | _, 0, _ => by simp [natDigitsAux]
  | 0, n + 1, h => absurd h (by omega)
  | fuel + 1, n + 1, h => by
      rw [natDigitsAux, Nat.digits_def' (b := 10) (by norm_num) (Nat.succ_pos n),
        natDigitsAux_eq_digits fuel ((n + 1) / 10)
          (by have := Nat.div_lt_self (Nat.succ_pos n) (by norm_num : 1 < 10); omega)]

/-- Decimal digit characters of a natural number, most significant first
(the JS `String(n)` rendering for naturals). -/
def natChars (n : Nat) : List Char :=
  if n = 0 then ['0'] else ((natDigitsAux n n).map digitChar).reverse

/-- Model of the host coercion `String(i)` for an integer. -/
def intToStr : Int → String
  | .ofNat n => ⟨natChars n⟩
  | .negSucc m => ⟨'-' :: natChars (m + 1)⟩

/-- Model of the string coercion of a JS number (as when a number is
assigned to `input.value` or to `textContent`); NaN renders as "NaN". -/
def jsNumToString : JSNum → String
  | some i => intToStr i
  | none => "NaN"

/-- Numeric value of a list of digit characters, most significant first. -/
def digitsToNat (l : List Char) : Nat :=
  l.foldl (fun a c => 10 * a + (c.toNat - 48)) 0

/-- Parse a maximal nonempty prefix of decimal digits; `none` when the list
does not start with a digit. -/
def parseNatPrefix (l : List Char) : Option Nat :=
  let ds := l.takeWhile Char.isDigit
  if ds = [] then none else some (digitsToNat ds)

/-- Core of the `parseFloat` model on a character list: optional sign, then
a nonempty digit prefix; anything else yields NaN (`none`). -/
def parseFloatCore (l : List Char) : JSNum :=
  match l with
  | [] => none
  | c :: rest =>
      if c = '-' then (parseNatPrefix rest).map fun n => -(n : Int)
      else if c = '+' then (parseNatPrefix rest).map fun n => (n : Int)
      else (parseNatPrefix l).map fun n => (n : Int)

/-- Model of the host `parseFloat` used by `Range.value` (line 345) and
`Number.value` (line 400): integer-granularity prefix parse, NaN on an
unparsable string. -/
def parseFloat (s : String) : JSNum := parseFloatCore s.data

/-- A decimal digit's character is a digit character. -/
theorem digitChar_isDigit (d : Nat) (h : d < 10) : Char.isDigit (digitChar d) = true := by
  interval_cases d <;> decide

/-- Reading back the numeric value of a digit's character. -/
theorem toNat_digitChar (d : Nat) (h : d < 10) : (digitChar d).toNat - 48 = d := by
  interval_cases d <;> decide

/-- Every character of `natChars n` is a decimal digit. -/
theorem natChars_isDigit (n : Nat) : ∀ c ∈ natChars n, Char.isDigit c = true := by
  intro c hc
  unfold natChars at hc
  by_cases h0 : n = 0
  · simp [h0] at hc
    simp [hc]
  · simp only [h0, if_false, List.mem_reverse, List.mem_map] at hc
    rw [natDigitsAux_eq_digits n n (le_refl n)] at hc
    obtain ⟨d, hd, rfl⟩ := hc
    exact digitChar_isDigit d (Nat.digits_lt_base (by norm_num) hd)

/-- `natChars n` is never empty. -/
theorem natChars_ne_nil (n : Nat) : natChars n ≠ [] := by
  unfold natChars
  by_cases h0 : n = 0
  · simp [h0]
  · simp only [h0, if_false, ne_eq, List.reverse_eq_nil_iff, List.map_eq_nil_iff]
    rw [natDigitsAux_eq_digits n n (le_refl n)]
    exact Nat.digits_ne_nil_iff_ne_zero.mpr h0

/-- Folding the digit characters (most significant first) recovers the
number. -/
theorem digitsToNat_natChars (n : Nat) : digitsToNat (natChars n) = n := by
  by_cases h0 : n = 0
  · simp [h0, natChars, digitsToNat]
  · unfold natChars
    simp only [h0, if_false]
    rw [natDigitsAux_eq_digits n n (le_refl n)]
    unfold digitsToNat
    rw [List.foldl_reverse, List.foldr_map]
    have key : ∀ L : List Nat, (∀ d ∈ L, d < 10) →
        L.foldr (fun x y => 10 * y + ((digitChar x).toNat - 48)) 0 = Nat.ofDigits 10 L := by
      intro L
      induction L with
      | nil => intro _; simp [Nat.ofDigits_nil]
      | cons d L ih =>
          intro hall
          have hd : d < 10 := hall d (List.mem_cons_self d L)
          simp only [List.foldr_cons, ih (fun x hx => hall x (List.mem_cons_of_mem d hx)),
            Nat.ofDigits_cons, toNat_digitChar d hd]
          omega
    rw [key (Nat.digits 10 n) (fun d hd => Nat.digits_lt_base (by norm_num) hd)]
    exact Nat.ofDigits_digits 10 n

/-- The digit-prefix parser inverts `natChars`. -/
theorem parseNatPrefix_natChars (n : Nat) : parseNatPrefix (natChars n) = some n := by
  unfold parseNatPrefix
  rw [List.takeWhile_eq_self_iff.mpr (natChars_isDigit n)]
  simp [natChars_ne_nil n, digitsToNat_natChars n]

/-- The `parseFloat` model inverts the `String(i)` model: reading a number
widget's value back after the host stored the string form of `i` yields `i`
again. -/
theorem parseFloat_intToStr (i : Int) : parseFloat (intToStr i) = some i := by
  match i with
  | .ofNat n =>
      show parseFloatCore (natChars n) = some (Int.ofNat n)
      obtain ⟨c, cs, hcons⟩ := List.exists_cons_of_ne_nil (natChars_ne_nil n)
      have hdig : Char.isDigit c = true := by
        apply natChars_isDigit n
        rw [hcons]; exact List.mem_cons_self c cs
      have hm : c ≠ '-' := by intro h; rw [h] at hdig; simp [Char.isDigit] at hdig
      have hp : c ≠ '+' := by intro h; rw [h] at hdig; simp [Char.isDigit] at hdig
      rw [hcons, parseFloatCore, if_neg hm, if_neg hp, ← hcons, parseNatPrefix_natChars n]
      rfl
  | .negSucc m =>
      show parseFloatCore ('-' :: natChars (m + 1)) = some (Int.negSucc m)
      rw [parseFloatCore, if_pos rfl, parseNatPrefix_natChars (m + 1)]
      simp [Int.negSucc_eq]

---------------------------------------------------------------------------
-- InputParam: the abstract bindable input widget (gui.js lines 211-261)
---------------------------------------------------------------------------

/-- Model of a thrown `Error`.  The only error the toolkit itself raises is
the "not implemented" failure from the base-class hook stubs on lines
241-245 of gui.js; `method` records which hook was missing. -/
inductive JSError : Type where
  | notImplemented (method : String)
deriving DecidableEq

/-- Observable actions performed by the `InputParam` constructor and its
event listeners, in execution order.  Callbacks are identified by a `Nat`
id so that which registered function was invoked is observable. -/
inductive WAction (V : Type) : Type where
  | setupCall (initial : V)
  | readValue (v : V)
  | updateCall (v : V)
  | writeTarget (v : V)
  | liveCb (id : Nat) (v : V)
  | commitCb (id : Nat) (v : V)
deriving DecidableEq

/-- The overridable methods of `InputParam` (gui.js lines 239-248).
`none` means the concrete subclass did not override the method, so the
base-class version runs: for `setup` and `value` that version throws a
"not implemented" error; for `update` it is a no-op.  Widget-specific
extra constructor arguments (min/max/step, options map) are captured in
the concrete widget's `setup` closure. -/
structure DynHooks (UI V : Type) : Type where
  setup : Option (V → UI → UI)
  value : Option (UI → V)
  update : Option (V → UI → UI)

/-- Dispatch of `this.setup(...)`: the base class throws
`Error('Method "setup()" must be implemented.')` (gui.js line 241). -/
def dynSetup (h : DynHooks UI V) (initial : V) (u : UI) : Except JSError UI :=
  match h.setup with
  | some f => .ok (f initial u)
  | none => .error (.notImplemented "setup")

/-- Dispatch of `this.value()`: the base class throws
`Error('Method "value()" must be implemented.')` (gui.js line 245). -/
def dynValue (h : DynHooks UI V) (u : UI) : Except JSError V :=
  match h.value with
  | some f => .ok (f u)
  | none => .error (.notImplemented "value")

/-- Dispatch of `this.update(v)`: the base class default is a no-op
(gui.js line 248). -/
def dynUpdate (h : DynHooks UI V) (v : V) (u : UI) : UI :=
  match h.update with
  | some f => f v u
  | none => u

/-- State of a constructed bindable widget: the interactive element's
state `ui`, the current value of the bound property `target[property]`,
and the registered live- and commit-callbacks (at most one each, by id;
`none` = not registered). -/
structure IPState (UI V : Type) : Type where
  ui : UI
  target : V
  liveCbId : Option Nat
  commitCbId : Option Nat

/-- Model of the `InputParam` constructor body after the listeners are
registered (gui.js lines 227-228): call `setup(target[property], ...)`,
then `update(this.value())`, each through dynamic dispatch; a missing
required hook propagates its "not implemented" error out of the
constructor.  Returns the constructed state and the trace of hook calls.
`initial` is the value currently held by `target[property]`; the
constructor reads it and never writes the target. -/
def ipConstruct (h : DynHooks UI V) (initial : V) (u0 : UI) :
    Except JSError (IPState UI V × List (WAction V)) := do
  let u1 ← dynSetup h initial u0
  let v0 ← dynValue h u1
  let u2 := dynUpdate h v0 u1
  .ok ({ ui := u2, target := initial, liveCbId := none, commitCbId := none },
       [WAction.setupCall initial, WAction.updateCall v0])

/-- Model of the `'input'` (live interaction) listener, gui.js lines
217-222: read `this.value()`, call `this.update(value)`, assign
`target[property] = value`, then invoke `this._onInput(value)` if
registered.  Called after the host has already applied the user's
manipulation to the element state held in `s.ui`.  Returns the new state
and the trace of actions in execution order. -/
def handleInput (h : DynHooks UI V) (s : IPState UI V) :
    Except JSError (IPState UI V × List (WAction V)) := do
  let v ← dynValue h s.ui
  let u' := dynUpdate h v s.ui
  .ok ({ s with ui := u', target := v },
       [WAction.readValue v, WAction.updateCall v, WAction.writeTarget v] ++
         (match s.liveCbId with
          | some id => [WAction.liveCb id v]
          | none => []))

/-- Model of the `'change'` (committed interaction) listener, gui.js lines
223-225: `if (this._onChange) this._onChange(this.value())`; nothing else
happens, and `value()` is only read when a commit-callback is
registered. -/
def handleChange (h : DynHooks UI V) (s : IPState UI V) :
    Except JSError (IPState UI V × List (WAction V)) :=
  match s.commitCbId with
  | some id => do
      let v ← dynValue h s.ui
      .ok (s, [WAction.commitCb id v])
  | none => .ok (s, [])

/-- Model of the chainable `onChange(fun)` (gui.js line 257): overwrites
`this._onChange` with the given callback. -/
def onChange (s : IPState UI V) (id : Nat) : IPState UI V :=
  { s with commitCbId := some id }

/-- Model of the chainable `onInput(fun)` (gui.js line 260): overwrites
`this._onInput` with the given callback. -/
def onInput (s : IPState UI V) (id : Nat) : IPState UI V :=
  { s with liveCbId := some id }

---------------------------------------------------------------------------
-- Concrete widget variants (gui.js lines 263-401)
---------------------------------------------------------------------------

/-- DOM state of the Boolean widget's checkbox: the `checked` flag is the
only element state the code reads or writes. -/
structure BoolUI : Type where
  checked : Bool
deriving DecidableEq

/-- A freshly spawned `input` element is unchecked. -/
def boolInitUI : BoolUI := { checked := false }

/-- `Boolean` (gui.js lines 263-275): `setup` runs
`setInput({type: 'checkbox', checked: initial})`; `value()` returns
`this.input.checked`; `update` is not overridden. -/
def booleanHooks : DynHooks BoolUI Bool :=
  { setup := some fun initial _u => { checked := initial },
    value := some fun u => u.checked,
    update := none }

/-- Constructing a Boolean widget over a target whose bound property holds
`initial`. -/
def constructBoolean (initial : Bool) :
    Except JSError (IPState BoolUI Bool × List (WAction Bool)) :=
  ipConstruct booleanHooks initial boolInitUI

/-- DOM state of the Number widget's numeric text entry: its `value`
string.  The focus/blur styling listeners (gui.js lines 391-398) are
purely presentational and not modelled. -/
structure NumUI : Type where
  value : String
deriving DecidableEq

/-- A freshly spawned `input` element has the empty `value`. -/
def numInitUI : NumUI := { value := "" }

/-- `Number` (gui.js lines 375-401): `setup` runs
`setInput({type: 'number', value: initial})`, which stores the string
coercion of `initial`; `value()` returns `parseFloat(this.input.value)`;
`update` is not overridden. -/
def numberHooks : DynHooks NumUI JSNum :=
  { setup := some fun initial _u => { value := jsNumToString initial },
    value := some fun u => parseFloat u.value,
    update := none }

/-- Constructing a Number widget over a target whose bound property holds
`initial`. -/
def constructNumber (initial : JSNum) :
    Except JSError (IPState NumUI JSNum × List (WAction JSNum)) :=
  ipConstruct numberHooks initial numInitUI

/-- DOM state of the Range widget: the slider input's `value`, `min`,
`max`, `step`, and the readout span's text content. -/
structure RangeUI : Type where
  value : String
  min : Int
  max : Int
  step : Int
  spanText : String
deriving DecidableEq

/-- Freshly spawned slider state before `setup` runs; `setup` overwrites
every field the code later reads, so the defaults are immaterial.  The
readout span does not exist yet; it is spawned empty during `setup`. -/
def rangeInitUI : RangeUI :=
  { value := "", min := 0, max := 0, step := 0, spanText := "" }

/-- `Range.setup` (gui.js lines 278-342), element-state part: `setInput({
type: 'range', min, max, step, value: initial})` plus spawning the empty
readout span.  Host-side clamping of a range input's value to
`[min, max]` is host behaviour and not modelled.  The style injection into
`document.head` is modelled separately in `constructRange`. -/
def rangeSetup (initial : JSNum) (mi ma st : Int) (u : RangeUI) : RangeUI :=
  { u with min := mi, max := ma, step := st, value := jsNumToString initial }

/-- `Range` hooks: `update(value)` writes the value into the readout span's
text (gui.js line 344, `textContent` coerces the number to a string);
`value()` is `parseFloat(this.input.value)` (line 345). -/
def rangeHooks (mi ma st : Int) : DynHooks RangeUI JSNum :=
  { setup := some fun initial u => rangeSetup initial mi ma st u,
    value := some fun u => parseFloat u.value,
    update := some fun v u => { u with spanText := jsNumToString v } }

/-- Stand-in for the text of the shared slider-thumb style rule injected by
`Range.setup` (gui.js lines 310-341); the CSS text itself is presentational
and abbreviated here. -/
def sliderThumbStyle : String :=
  "slider-thumb style rules for input type range (webkit and moz)"

/-- Constructing a Range widget.  `docHead` is the list of style-node texts
under `document.head`; `Range.setup` unconditionally spawns a fresh style
node there and fills it with the shared thumb rule (gui.js line 310). -/
def constructRange (docHead : List String) (initial : JSNum) (mi ma st : Int) :
    (Except JSError (IPState RangeUI JSNum × List (WAction JSNum))) × List String :=
  (ipConstruct (rangeHooks mi ma st) initial rangeInitUI,
   docHead ++ [sliderThumbStyle])

/-- The document head after constructing `n` Range widgets in sequence. -/
def constructRanges (initial : JSNum) (mi ma st : Int) : Nat → List String → List String
  | 0, docHead => docHead
  | n + 1, docHead =>
      constructRanges initial mi ma st n (constructRange docHead initial mi ma st).2

/-- One `option` element of the Select widget: its displayed text, its
`value` attribute (the JSON encoding of the option's value, gui.js line
364), and its `selected` flag. -/
structure SelOption : Type where
  text : String
  value : JsonData
  selected : Bool

/-- DOM state of the Select widget: its option list and the model of the
JS heap allocator (`freshRef`) from which `JSON.parse` draws fresh array
references. -/
structure SelectUI : Type where
  opts : List SelOption
  freshRef : Nat

/-- A freshly spawned `select` element has no options; `seed` positions the
allocator model. -/
def selectInitUI (seed : Nat) : SelectUI := { opts := [], freshRef := seed }

/-- `Select.setup` (gui.js lines 349-369): for each `[key, value]` entry of
the options map (in insertion order), spawn an option with `text = key`,
`value = JSON.stringify(value)`, and `selected` set when
`value === initial` (strict equality, line 367). -/
def selectSetup (options : List (String × JSVal)) (initial : JSVal) (u : SelectUI) : SelectUI :=
  { u with opts := options.map fun p =>
      { text := p.1, value := jsonStringify p.2, selected := strictEq p.2 initial } }

/-- The host's `select.value`: the value attribute of the effectively
selected option.  Assigning `selected = true` to a later option overrides
an earlier assignment in a single-select element, so the effective option
is the last one flagged; when no option was flagged the host selects the
first option by default; an empty select has value `""`. -/
def selectDomValue (u : SelectUI) : Option JsonData :=
  match (u.opts.filter fun o => o.selected).getLast? with
  | some o => some o.value
  | none => (u.opts.head?).map fun o => o.value

/-- `Select.value()` (gui.js line 372): `JSON.parse(this.input.value)`,
allocating fresh array references.  On an empty select `JSON.parse("")`
would throw in JS; that corner is modelled as `null` and is not exercised
by any claim (all involve nonempty options maps). -/
def selectValueHook (u : SelectUI) : JSVal :=
  (parseJson ((selectDomValue u).getD JsonData.jnull) u.freshRef).1

/-- `Select` hooks (gui.js lines 348-373): `update` is not overridden. -/
def selectHooks (options : List (String × JSVal)) : DynHooks SelectUI JSVal :=
  { setup := some fun initial u => selectSetup options initial u,
    value := some selectValueHook,
    update := none }

/-- Constructing a Select widget over a target whose bound property holds
`initial`, with allocator seed `seed`. -/
def constructSelect (options : List (String × JSVal)) (initial : JSVal) (seed : Nat) :
    Except JSError (IPState SelectUI JSVal × List (WAction JSVal)) :=
  ipConstruct (selectHooks options) initial (selectInitUI seed)

---------------------------------------------------------------------------
-- Folder (gui.js lines 127-171)
---------------------------------------------------------------------------

/-- State of a Folder's collapsible `details` wrapper: its `open` flag and
its `style.display` string.  (`show` and `open` are Lean keywords, hence
the `F` suffix on the method names below.) -/
structure FolderState : Type where
  detailsOpen : Bool
  display : String
deriving DecidableEq

/-- Folder constructor (gui.js lines 141-165): sets `this.#details.open =
true` (line 153); the style map applied to the details element sets no
`display`, so it keeps the default `""` (visible). -/
def folderInit : FolderState := { detailsOpen := true, display := "" }

/-- `show()` (line 167): `this.#details.style.display = ''`. -/
def showF (s : FolderState) : FolderState := { s with display := "" }

/-- `hide()` (line 168): `this.#details.style.display = 'none'`. -/
def hideF (s : FolderState) : FolderState := { s with display := "none" }

/-- `open()` (line 169): `this.#details.open = true`. -/
def openF (s : FolderState) : FolderState := { s with detailsOpen := true }

/-- `close()` (line 170): `this.#details.open = false`. -/
def closeF (s : FolderState) : FolderState := { s with detailsOpen := false }

/-- The visibility flag: a details element is visible unless its display
style is `none`. -/
def folderVisible (s : FolderState) : Bool := s.display != "none"

/-- The expansion flag of the collapsible wrapper. -/
def folderExpanded (s : FolderState) : Bool := s.detailsOpen

---------------------------------------------------------------------------
-- Claim theorems
---------------------------------------------------------------------------

/-- C1: for every bindable widget (Boolean, Number, Range, Select), each
live interaction ('input') event performs, in order: read the current UI
value via `value()`, call `update` with that value, write that value into
`target[property]`, and invoke the registered live-callback with that same
value if one was registered; the commit-callback is not invoked by a live
interaction event (no `commitCb` action appears in the trace). -/
theorem c1_live_interaction_effects :
    (∀ s : IPState BoolUI Bool,
       handleInput booleanHooks s =
         .ok ({ s with target := s.ui.checked },
              [.readValue s.ui.checked, .updateCall s.ui.checked,
               .writeTarget s.ui.checked] ++
                (match s.liveCbId with
                 | some id => [.liveCb id s.ui.checked]
                 | none => []))) ∧
    (∀ s : IPState NumUI JSNum,
       handleInput numberHooks s =
         .ok ({ s with target := parseFloat s.ui.value },
              [.readValue (parseFloat s.ui.value), .updateCall (parseFloat s.ui.value),
               .writeTarget (parseFloat s.ui.value)] ++
                (match s.liveCbId with
                 | some id => [.liveCb id (parseFloat s.ui.value)]
                 | none => []))) ∧
    (∀ (mi ma st : Int) (s : IPState RangeUI JSNum),
       handleInput (rangeHooks mi ma st) s =
         .ok ({ s with
                  ui := { s.ui with spanText := jsNumToString (parseFloat s.ui.value) },
                  target := parseFloat s.ui.value },
              [.readValue (parseFloat s.ui.value), .updateCall (parseFloat s.ui.value),
               .writeTarget (parseFloat s.ui.value)] ++
                (match s.liveCbId with
                 | some id => [.liveCb id (parseFloat s.ui.value)]
                 | none => []))) ∧
    (∀ (options : List (String × JSVal)) (s : IPState SelectUI JSVal),
       handleInput (selectHooks options) s =
         .ok ({ s with target := selectValueHook s.ui },
              [.readValue (selectValueHook s.ui), .updateCall (selectValueHook s.ui),
               .writeTarget (selectValueHook s.ui)] ++
                (match s.liveCbId with
                 | some id => [.liveCb id (selectValueHook s.ui)]
                 | none => []))) := by
  refine ⟨fun s => ?_, fun s => ?_, fun mi ma st s => ?_, fun options s => ?_⟩ <;>
    obtain ⟨u, t, l, c⟩ := s <;> cases l <;> rfl

/-- C9: for every bindable widget, a committed interaction ('change')
event never writes `target[property]` and never calls the `update` hook:
its only effect is to invoke the commit-callback with the current
`value()` if one was registered; with no commit-callback registered the
state is returned unchanged with an empty action trace. -/
theorem c9_change_event_effects :
    (∀ s : IPState BoolUI Bool,
       handleChange booleanHooks s =
         .ok (s, match s.commitCbId with
                 | some id => [.commitCb id s.ui.checked]
                 | none => [])) ∧
    (∀ s : IPState NumUI JSNum,
       handleChange numberHooks s =
         .ok (s, match s.commitCbId with
                 | some id => [.commitCb id (parseFloat s.ui.value)]
                 | none => [])) ∧
    (∀ (mi ma st : Int) (s : IPState RangeUI JSNum),
       handleChange (rangeHooks mi ma st) s =
         .ok (s, match s.commitCbId with
                 | some id => [.commitCb id (parseFloat s.ui.value)]
                 | none => [])) ∧
    (∀ (options : List (String × JSVal)) (s : IPState SelectUI JSVal),
       handleChange (selectHooks options) s =
         .ok (s, match s.commitCbId with
                 | some id => [.commitCb id (selectValueHook s.ui)]
                 | none => [])) := by
  refine ⟨fun s => ?_, fun s => ?_, fun mi ma st s => ?_, fun options s => ?_⟩ <;>
    obtain ⟨u, t, l, c⟩ := s <;> cases c <;> rfl

/-- C10: at most one live-callback and at most one commit-callback are
registered at any time: `onInput(g)` after `onInput(f)` replaces `f` with
`g` (likewise `onChange`), and a subsequent live or committed interaction
event invokes only the most recently registered callback, exactly once. -/
theorem c10_callback_replacement :
    (∀ (UI V : Type) (s : IPState UI V) (f g : Nat), onInput (onInput s f) g = onInput s g) ∧
    (∀ (UI V : Type) (s : IPState UI V) (f g : Nat), onChange (onChange s f) g = onChange s g) ∧
    (∀ (UI V : Type) (h : DynHooks UI V) (vf : UI → V), h.value = some vf →
       ∀ (s : IPState UI V) (f g : Nat),
         handleInput h (onInput (onInput s f) g) =
           .ok ({ s with ui := dynUpdate h (vf s.ui) s.ui, target := vf s.ui,
                         liveCbId := some g },
                [.readValue (vf s.ui), .updateCall (vf s.ui), .writeTarget (vf s.ui),
                 .liveCb g (vf s.ui)])) ∧
    (∀ (UI V : Type) (h : DynHooks UI V) (vf : UI → V), h.value = some vf →
       ∀ (s : IPState UI V) (f g : Nat),
         handleChange h (onChange (onChange s f) g) =
           .ok ({ s with commitCbId := some g }, [.commitCb g (vf s.ui)])) := by
  refine ⟨fun UI V s f g => rfl, fun UI V s f g => rfl,
          fun UI V h vf hv s f g => ?_, fun UI V h vf hv s f g => ?_⟩
  · obtain ⟨a, b, c⟩ := h
    cases hv
    rfl
  · obtain ⟨a, b, c⟩ := h
    cases hv
    rfl

/-- Witness for C10: with the Boolean widget, after registering callbacks
0 then 1, a live event invokes only callback 1 once, and likewise for the
commit path. -/
theorem c10_callback_replacement_witness :
    handleInput booleanHooks
        (onInput (onInput { ui := { checked := true }, target := false,
                            liveCbId := none, commitCbId := none } 0) 1) =
      .ok ({ ui := { checked := true }, target := true, liveCbId := some 1,
             commitCbId := none },
           [.readValue true, .updateCall true, .writeTarget true, .liveCb 1 true]) ∧
    handleChange booleanHooks
        (onChange (onChange { ui := { checked := true }, target := false,
                              liveCbId := none, commitCbId := none } 0) 1) =
      .ok ({ ui := { checked := true }, target := false, liveCbId := none,
             commitCbId := some 1 },
           [.commitCb 1 true]) :=
  ⟨c10_callback_replacement.2.2.1 BoolUI Bool booleanHooks (fun u => u.checked) rfl
      { ui := { checked := true }, target := false, liveCbId := none, commitCbId := none } 0 1,
   c10_callback_replacement.2.2.2 BoolUI Bool booleanHooks (fun u => u.checked) rfl
      { ui := { checked := true }, target := false, liveCbId := none, commitCbId := none } 0 1⟩

/-- C3: a concrete widget variant that omits a required hook (`setup` or
`value`) makes the constructor raise the "not implemented" failure
synchronously, before it returns, rather than silently proceeding; the
`update` hook is optional and defaults to a no-op (with `setup` and
`value` present and `update` absent, construction succeeds and the update
step leaves the element state produced by `setup` unchanged). -/
theorem c3_missing_hook_errors :
    (∀ (UI V : Type) (h : DynHooks UI V) (initial : V) (u0 : UI),
       h.setup = none → ipConstruct h initial u0 = .error (.notImplemented "setup")) ∧
    (∀ (UI V : Type) (h : DynHooks UI V) (initial : V) (u0 : UI) (sf : V → UI → UI),
       h.setup = some sf → h.value = none →
         ipConstruct h initial u0 = .error (.notImplemented "value")) ∧
    (∀ (UI V : Type) (h : DynHooks UI V) (initial : V) (u0 : UI)
       (sf : V → UI → UI) (vf : UI → V),
       h.setup = some sf → h.value = some vf → h.update = none →
         ipConstruct h initial u0 =
           .ok ({ ui := sf initial u0, target := initial, liveCbId := none,
                  commitCbId := none },
                [.setupCall initial, .updateCall (vf (sf initial u0))])) := by
  refine ⟨fun UI V h initial u0 hs => ?_,
          fun UI V h initial u0 sf hs hv => ?_,
          fun UI V h initial u0 sf vf hs hv hu => ?_⟩
  · obtain ⟨a, b, c⟩ := h
    cases hs
    rfl
  · obtain ⟨a, b, c⟩ := h
    cases hs
    cases hv
    rfl
  · obtain ⟨a, b, c⟩ := h
    cases hs
    cases hv
    cases hu
    rfl

/-- Witness for C3: a Boolean-shaped variant missing `setup` (resp.
`value`) fails with the corresponding "not implemented" error at
construction; the real Boolean widget, which omits only `update`,
constructs successfully with its element state exactly as `setup` left
it. -/
theorem c3_missing_hook_errors_witness :
    ipConstruct ({ setup := none, value := some (fun u => u.checked),
                   update := none } : DynHooks BoolUI Bool) true boolInitUI =
      .error (.notImplemented "setup") ∧
    ipConstruct ({ setup := some (fun initial _u => { checked := initial }),
                   value := none,
                   update := none } : DynHooks BoolUI Bool) true boolInitUI =
      .error (.notImplemented "value") ∧
    ipConstruct booleanHooks true boolInitUI =
      .ok ({ ui := { checked := true }, target := true, liveCbId := none, commitCbId := none },
           [.setupCall true, .updateCall true]) :=
  ⟨c3_missing_hook_errors.1 BoolUI Bool _ true boolInitUI rfl,
   c3_missing_hook_errors.2.1 BoolUI Bool _ true boolInitUI _ rfl rfl,
   c3_missing_hook_errors.2.2 BoolUI Bool booleanHooks true boolInitUI
     (fun initial _u => { checked := initial }) (fun u => u.checked) rfl rfl rfl⟩

/-- `parseFloat` inverts the string coercion of any JS number of the model,
including NaN (JS `parseFloat("NaN")` is NaN; here "NaN" has no digit
prefix). -/
theorem parseFloat_jsNumToString (x : JSNum) : parseFloat (jsNumToString x) = x := by
  cases x with
  | none => rfl
  | some i => exact parseFloat_intToStr i

/-- After `Select.setup`, the host's `select.value` is the encoded value of
the last option whose original value is strictly equal to the initial
value, when such an option exists. -/
theorem selectSetup_domValue (options : List (String × JSVal)) (initial : JSVal)
    (u : SelectUI) (lastp : String × JSVal)
    (hlast : (options.filter fun p => strictEq p.2 initial).getLast? = some lastp) :
    selectDomValue (selectSetup options initial u) = some (jsonStringify lastp.2) := by
  unfold selectSetup selectDomValue
  simp only []
  rw [List.filter_map]
  rw [show ((fun o : SelOption => o.selected) ∘ fun p : String × JSVal =>
        ({ text := p.1, value := jsonStringify p.2,
           selected := strictEq p.2 initial } : SelOption)) =
      (fun p : String × JSVal => strictEq p.2 initial) from rfl]
  rw [List.getLast?_map, hlast]
  rfl

/-- C2: constructing each bindable widget variant over a target whose bound
property holds `V` calls `setup` with `V` (plus the widget-specific extra
arguments captured in the variant's hooks) and then `update(value())`
exactly once — the construction trace is `[setupCall V, updateCall v0]` —
and immediately afterwards `value()` returns `V` or its documented
coercion: the boolean itself, the numeric parse of the stored string form
of `V` (which is `V` again), and for Select the JSON round-trip of the
matching option's value, structurally equal to it. -/
theorem c2_construction_initial_value :
    (∀ b : Bool,
       constructBoolean b =
         .ok ({ ui := { checked := b }, target := b, liveCbId := none, commitCbId := none },
              [.setupCall b, .updateCall b])) ∧
    (∀ x : JSNum,
       parseFloat (jsNumToString x) = x ∧
       constructNumber x =
         .ok ({ ui := { value := jsNumToString x }, target := x, liveCbId := none,
                commitCbId := none },
              [.setupCall x, .updateCall x])) ∧
    (∀ (x : JSNum) (mi ma st : Int) (docHead : List String),
       (constructRange docHead x mi ma st).1 =
         .ok ({ ui := { value := jsNumToString x, min := mi, max := ma, step := st,
                        spanText := jsNumToString x },
                target := x, liveCbId := none, commitCbId := none },
              [.setupCall x, .updateCall x])) ∧
    (∀ (options : List (String × JSVal)) (initial : JSVal) (seed : Nat)
       (lastp : String × JSVal),
       (options.filter fun p => strictEq p.2 initial).getLast? = some lastp →
       noNaN lastp.2 = true →
       strictEq lastp.2 initial = true ∧
       constructSelect options initial seed =
         .ok ({ ui := selectSetup options initial (selectInitUI seed), target := initial,
                liveCbId := none, commitCbId := none },
              [.setupCall initial,
               .updateCall (selectValueHook (selectSetup options initial (selectInitUI seed)))]) ∧
       structEq (selectValueHook (selectSetup options initial (selectInitUI seed)))
         lastp.2 = true) := by
  refine ⟨fun b => rfl, fun x => ⟨parseFloat_jsNumToString x, ?_⟩,
          fun x mi ma st docHead => ?_, fun options initial seed lastp hlast hnn => ?_⟩
  · calc constructNumber x
        = .ok ({ ui := { value := jsNumToString x }, target := x, liveCbId := none,
                 commitCbId := none },
               [.setupCall x, .updateCall (parseFloat (jsNumToString x))]) := rfl
      _ = .ok ({ ui := { value := jsNumToString x }, target := x, liveCbId := none,
                 commitCbId := none },
               [.setupCall x, .updateCall x]) := by rw [parseFloat_jsNumToString x]
  · calc (constructRange docHead x mi ma st).1
        = .ok ({ ui := { value := jsNumToString x, min := mi, max := ma, step := st,
                         spanText := jsNumToString (parseFloat (jsNumToString x)) },
                 target := x, liveCbId := none, commitCbId := none },
               [.setupCall x, .updateCall (parseFloat (jsNumToString x))]) := rfl
      _ = .ok ({ ui := { value := jsNumToString x, min := mi, max := ma, step := st,
                         spanText := jsNumToString x },
                 target := x, liveCbId := none, commitCbId := none },
               [.setupCall x, .updateCall x]) := by rw [parseFloat_jsNumToString x]
  · refine ⟨(List.mem_filter.mp (List.mem_of_mem_getLast? hlast)).2, rfl, ?_⟩
    show structEq
        (parseJson ((selectDomValue (selectSetup options initial (selectInitUI seed))).getD
          .jnull) (selectSetup options initial (selectInitUI seed)).freshRef).1 lastp.2 = true
    rw [selectSetup_domValue options initial (selectInitUI seed) lastp hlast]
    exact structEq_parseJson_stringify lastp.2 hnn _

/-- Witness for C2 (the hypothesis-bearing Select part): a Select over
options one ↦ 1, two ↦ 2 with initial value 2 preselects "two" and
`value()` returns a value structurally equal to 2. -/
theorem c2_construction_initial_value_witness :
    strictEq (.vnum (some 2)) (.vnum (some 2)) = true ∧
    constructSelect [("one", .vnum (some 1)), ("two", .vnum (some 2))] (.vnum (some 2)) 7 =
      .ok ({ ui := selectSetup [("one", .vnum (some 1)), ("two", .vnum (some 2))]
                     (.vnum (some 2)) (selectInitUI 7),
             target := .vnum (some 2), liveCbId := none, commitCbId := none },
           [.setupCall (.vnum (some 2)),
            .updateCall (selectValueHook (selectSetup
              [("one", .vnum (some 1)), ("two", .vnum (some 2))] (.vnum (some 2))
              (selectInitUI 7)))]) ∧
    structEq (selectValueHook (selectSetup [("one", .vnum (some 1)), ("two", .vnum (some 2))]
      (.vnum (some 2)) (selectInitUI 7))) (.vnum (some 2)) = true :=
  c2_construction_initial_value.2.2.2 [("one", .vnum (some 1)), ("two", .vnum (some 2))]
    (.vnum (some 2)) 7 ("two", .vnum (some 2)) rfl rfl

/-- Options map of the C4 counterexample: A ↦ 1 and C ↦ the array
`[1, 2]` (held under reference 0). -/
def c4Options : List (String × JSVal) :=
  [("A", .vnum (some 1)), ("C", .varr 0 [.vnum (some 1), .vnum (some 2)])]

/-- Initial value of the C4 counterexample: a distinct array `[1, 2]`
(reference 1), structurally equal to option C's value but a different
object. -/
def c4Initial : JSVal := .varr 1 [.vnum (some 1), .vnum (some 2)]

/-- Counterexample to C4: the initial value is structurally equal to
option C's original value, yet after construction no option is flagged
selected (preselection used `===`, i.e. reference equality for arrays), so
the host falls back to the first option A and `value()` returns 1 — not a
value structurally equal to the initial `[1, 2]`. -/
theorem c4_array_preselection_counterexample :
    structEq c4Initial (.varr 0 [.vnum (some 1), .vnum (some 2)]) = true ∧
    constructSelect c4Options c4Initial 10 =
      .ok ({ ui := { opts := [{ text := "A", value := .jnum 1, selected := false },
                              { text := "C", value := .jarr [.jnum 1, .jnum 2],
                                selected := false }],
                     freshRef := 10 },
             target := c4Initial, liveCbId := none, commitCbId := none },
           [.setupCall c4Initial, .updateCall (.vnum (some 1))]) ∧
    structEq (.vnum (some 1)) c4Initial = false :=
  ⟨rfl, rfl, rfl⟩

/-- C4 as amended: preselection uses JS strict equality of the original
(pre-serialization) values — value equality for primitive option values,
not string comparison of their JSON encodings, but reference (not
structural) equality for array-valued options.  When some option's value
is strictly equal to the initial value, the last such option is the
effectively selected one and `value()` returns its original value up to
structural equality. -/
theorem c4_strict_preselection_amended :
    ∀ (options : List (String × JSVal)) (initial : JSVal) (seed : Nat),
      (selectSetup options initial (selectInitUI seed)).opts =
        options.map (fun p => { text := p.1, value := jsonStringify p.2,
                                selected := strictEq p.2 initial }) ∧
      (∀ lastp : String × JSVal,
        (options.filter fun p => strictEq p.2 initial).getLast? = some lastp →
        noNaN lastp.2 = true →
        selectDomValue (selectSetup options initial (selectInitUI seed)) =
          some (jsonStringify lastp.2) ∧
        structEq (selectValueHook (selectSetup options initial (selectInitUI seed)))
          lastp.2 = true) := by
  intro options initial seed
  refine ⟨rfl, fun lastp hlast hnn => ⟨selectSetup_domValue options initial _ lastp hlast, ?_⟩⟩
  show structEq
      (parseJson ((selectDomValue (selectSetup options initial (selectInitUI seed))).getD
        .jnull) (selectSetup options initial (selectInitUI seed)).freshRef).1 lastp.2 = true
  rw [selectSetup_domValue options initial (selectInitUI seed) lastp hlast]
  exact structEq_parseJson_stringify lastp.2 hnn _

/-- Witness for the amended C4, on the spec's round-trip example: options
A ↦ 1, B ↦ "x", C ↦ [1, 2] with initial value "x" preselect option B, and
`value()` returns a value structurally equal to "x". -/
theorem c4_strict_preselection_amended_witness :
    (selectSetup [("A", .vnum (some 1)), ("B", .vstr "x"),
        ("C", .varr 0 [.vnum (some 1), .vnum (some 2)])] (.vstr "x") (selectInitUI 3)).opts =
      [("A", .vnum (some 1)), ("B", .vstr "x"),
        ("C", .varr 0 [.vnum (some 1), .vnum (some 2)])].map
        (fun p => { text := p.1, value := jsonStringify p.2,
                    selected := strictEq p.2 (.vstr "x") }) ∧
    (selectDomValue (selectSetup [("A", .vnum (some 1)), ("B", .vstr "x"),
        ("C", .varr 0 [.vnum (some 1), .vnum (some 2)])] (.vstr "x") (selectInitUI 3)) =
      some (jsonStringify (.vstr "x")) ∧
     structEq (selectValueHook (selectSetup [("A", .vnum (some 1)), ("B", .vstr "x"),
        ("C", .varr 0 [.vnum (some 1), .vnum (some 2)])] (.vstr "x") (selectInitUI 3)))
       (.vstr "x") = true) :=
  ⟨(c4_strict_preselection_amended [("A", .vnum (some 1)), ("B", .vstr "x"),
      ("C", .varr 0 [.vnum (some 1), .vnum (some 2)])] (.vstr "x") 3).1,
   (c4_strict_preselection_amended [("A", .vnum (some 1)), ("B", .vstr "x"),
      ("C", .varr 0 [.vnum (some 1), .vnum (some 2)])] (.vstr "x") 3).2
     ("B", .vstr "x") rfl rfl⟩

/-- C5: a Folder starts expanded and visible; `open()`/`close()` touch only
the expansion flag and `show()`/`hide()` only the visibility flag, so the
two are independent (hidden+expanded and visible+collapsed are both
reachable); `close()` then `hide()` in either order leaves both flags
false, and `open()` after `close()` restores expansion without changing
visibility. -/
theorem c5_folder_state_machine :
    (folderExpanded folderInit = true ∧ folderVisible folderInit = true) ∧
    (∀ s, hideF (closeF s) = closeF (hideF s)) ∧
    (folderExpanded (hideF (closeF folderInit)) = false ∧
     folderVisible (hideF (closeF folderInit)) = false) ∧
    (∀ s, folderExpanded (openF (closeF s)) = true ∧
          folderVisible (openF (closeF s)) = folderVisible s) ∧
    (∀ s, folderVisible (openF s) = folderVisible s ∧
          folderVisible (closeF s) = folderVisible s ∧
          folderExpanded (showF s) = folderExpanded s ∧
          folderExpanded (hideF s) = folderExpanded s ∧
          folderExpanded (openF s) = true ∧
          folderExpanded (closeF s) = false ∧
          folderVisible (showF s) = true ∧
          folderVisible (hideF s) = false) ∧
    (folderExpanded (hideF folderInit) = true ∧ folderVisible (hideF folderInit) = false ∧
     folderExpanded (closeF folderInit) = false ∧ folderVisible (closeF folderInit) = true) :=
  ⟨⟨rfl, rfl⟩, fun _ => rfl, ⟨rfl, rfl⟩, fun _ => ⟨rfl, rfl⟩,
   fun _ => ⟨rfl, rfl, rfl, rfl, rfl, rfl, rfl, rfl⟩, rfl, rfl, rfl, rfl⟩

/-- C6: a Range over min 0, max 10, step 1 with initial value 3 stores
slider string "3" and readout "3" (so `value()` parses to 3); a live
interaction that moves the slider string to "7" makes `value()` 7, writes
7 into the bound property, and the readout span beside the slider shows
"7". -/
theorem c6_range_scenario :
    (constructRange [] (some 3) 0 10 1).1 =
      .ok ({ ui := { value := "3", min := 0, max := 10, step := 1, spanText := "3" },
             target := some 3, liveCbId := none, commitCbId := none },
           [.setupCall (some 3), .updateCall (some 3)]) ∧
    parseFloat "3" = some 3 ∧
    handleInput (rangeHooks 0 10 1)
        { ui := { value := "7", min := 0, max := 10, step := 1, spanText := "3" },
          target := some 3, liveCbId := none, commitCbId := none } =
      .ok ({ ui := { value := "7", min := 0, max := 10, step := 1, spanText := "7" },
             target := some 7, liveCbId := none, commitCbId := none },
           [.readValue (some 7), .updateCall (some 7), .writeTarget (some 7)]) ∧
    parseFloat "7" = some 7 :=
  ⟨rfl, rfl, rfl, rfl⟩

/-- C7: for Number and Range, `value()` is exactly the parse of the
interactive element's current string value; on an unparsable string it is
NaN, and a live interaction event propagates that NaN as-is into
`target[property]`, returning normally (an `ok` result — no validation, no
recovery, no error raised). -/
theorem c7_nan_propagation :
    (∀ u : NumUI, dynValue numberHooks u = .ok (parseFloat u.value)) ∧
    (∀ (mi ma st : Int) (u : RangeUI),
       dynValue (rangeHooks mi ma st) u = .ok (parseFloat u.value)) ∧
    (∀ s : IPState NumUI JSNum, parseFloat s.ui.value = none →
       handleInput numberHooks s =
         .ok ({ s with target := none },
              [.readValue none, .updateCall none, .writeTarget none] ++
                (match s.liveCbId with
                 | some id => [.liveCb id none]
                 | none => []))) ∧
    (∀ (mi ma st : Int) (s : IPState RangeUI JSNum), parseFloat s.ui.value = none →
       handleInput (rangeHooks mi ma st) s =
         .ok ({ s with ui := { s.ui with spanText := "NaN" }, target := none },
              [.readValue none, .updateCall none, .writeTarget none] ++
                (match s.liveCbId with
                 | some id => [.liveCb id none]
                 | none => []))) := by
  refine ⟨fun u => rfl, fun mi ma st u => rfl,
          fun s h => ?_, fun mi ma st s h => ?_⟩
  · obtain ⟨u, t, l, c⟩ := s
    cases l with
    | none =>
        have e : handleInput numberHooks
            { ui := u, target := t, liveCbId := none, commitCbId := c } =
          .ok ({ ui := u, target := parseFloat u.value, liveCbId := none, commitCbId := c },
               [.readValue (parseFloat u.value), .updateCall (parseFloat u.value),
                .writeTarget (parseFloat u.value)]) := rfl
        rw [h] at e
        exact e
    | some id =>
        have e : handleInput numberHooks
            { ui := u, target := t, liveCbId := some id, commitCbId := c } =
          .ok ({ ui := u, target := parseFloat u.value, liveCbId := some id,
                 commitCbId := c },
               [.readValue (parseFloat u.value), .updateCall (parseFloat u.value),
                .writeTarget (parseFloat u.value), .liveCb id (parseFloat u.value)]) := rfl
        rw [h] at e
        exact e
  · obtain ⟨u, t, l, c⟩ := s
    cases l with
    | none =>
        have e : handleInput (rangeHooks mi ma st)
            { ui := u, target := t, liveCbId := none, commitCbId := c } =
          .ok ({ ui := { u with spanText := jsNumToString (parseFloat u.value) },
                 target := parseFloat u.value, liveCbId := none, commitCbId := c },
               [.readValue (parseFloat u.value), .updateCall (parseFloat u.value),
                .writeTarget (parseFloat u.value)]) := rfl
        rw [h] at e
        exact e
    | some id =>
        have e : handleInput (rangeHooks mi ma st)
            { ui := u, target := t, liveCbId := some id, commitCbId := c } =
          .ok ({ ui := { u with spanText := jsNumToString (parseFloat u.value) },
                 target := parseFloat u.value, liveCbId := some id, commitCbId := c },
               [.readValue (parseFloat u.value), .updateCall (parseFloat u.value),
                .writeTarget (parseFloat u.value), .liveCb id (parseFloat u.value)]) := rfl
        rw [h] at e
        exact e

/-- Witness for C7: a Number widget whose entry holds the unparsable "abc"
propagates NaN into the target on a live event, with no error. -/
theorem c7_nan_propagation_witness :
    parseFloat "abc" = none ∧
    handleInput numberHooks
        { ui := { value := "abc" }, target := some 5, liveCbId := some 4,
          commitCbId := none } =
      .ok ({ ui := { value := "abc" }, target := none, liveCbId := some 4,
             commitCbId := none },
           [.readValue none, .updateCall none, .writeTarget none, .liveCb 4 none]) :=
  ⟨rfl,
   c7_nan_propagation.2.2.1
     { ui := { value := "abc" }, target := some 5, liveCbId := some 4, commitCbId := none }
     rfl⟩

/-- C8: every Range construction appends a fresh style node with the
shared slider-thumb rule to the document head — a per-instance side
effect with no idempotency guard — so building `n` Range widgets over any
starting head (even one that already contains the rule) leaves exactly
`n` additional copies. -/
theorem c8_style_injection_per_instance :
    (∀ (docHead : List String) (x : JSNum) (mi ma st : Int),
       (constructRange docHead x mi ma st).2 = docHead ++ [sliderThumbStyle]) ∧
    (∀ (n : Nat) (docHead : List String) (x : JSNum) (mi ma st : Int),
       (constructRanges x mi ma st n docHead).count sliderThumbStyle =
         docHead.count sliderThumbStyle + n) := by
  refine ⟨fun docHead x mi ma st => rfl, fun n => ?_⟩
  induction n with
  | zero => intro docHead x mi ma st; rfl
  | succ k ih =>
      intro docHead x mi ma st
      show (constructRanges x mi ma st k (docHead ++ [sliderThumbStyle])).count
          sliderThumbStyle = docHead.count sliderThumbStyle + (k + 1)
      rw [ih (docHead ++ [sliderThumbStyle]) x mi ma st, List.count_append]
      simp
      omega
